import Mathlib

/-!
# xattrs: the exported binding layer

A shallow embedding of `src/RcppExports.cpp`: the eight `extern "C"` wrappers
that R reaches through `.Call`, the registration table `CallEntries` and
`R_init_xattrs`.

The wrappers are built from pieces of the Rcpp library (`Rcpp::as`,
`Rcpp::wrap`, `Rcpp::RNGScope`, `BEGIN_RCPP`/`END_RCPP`) and call eight core
functions that the file only declares.  The core functions are a parameter of
every wrapper, and so are the two R calls behind `RNGScope`.  The other Rcpp
pieces are library code outside this repository; the first sections model
what they do on the values the wrappers pass them.  The argument expressions
of a call are evaluated in parameter order here (C++ leaves the order open;
it only decides which exception is seen when several conversions throw).
-/

namespace Xattrs

/-! ## Host values (R's `SEXP`) -/

/-- Modelled on R's API (not among the sources): atomic R vectors, by
payload.  Logical and integer vectors carry C `int`s (`NA` is the payload
`INT_MIN`); the payload of a numeric vector is kept as the exact integer it
holds (rounding of doubles is outside this model). -/
inductive RVec
  | LGLSXP (xs : List Int)
  | INTSXP (xs : List Int)
  | REALSXP (xs : List Int)
  | STRSXP (xs : List (Option String))
  | RAWSXP (xs : List (Fin 256))
  deriving DecidableEq, Repr

/-- Modelled on R's API (not among the sources): an R value as the wrappers
see it: `NULL`, an atomic vector, or a generic vector (R list) of atomic
vectors.  Attributes are not modelled. -/
inductive SEXP
  | NILSXP
  | atomic (v : RVec)
  | VECSXP (xs : List RVec)
  deriving DecidableEq, Repr

/-- Modelled on Rcpp's headers (not among the sources): `RawVector`, the bytes of
a `RAWSXP`. -/
abbrev RawVector := List (Fin 256)

/-- Modelled on Rcpp's headers (not among the sources): `CharacterVector`, the
elements of a `STRSXP`, `none` for `NA_character_`. -/
abbrev CharacterVector := List (Option String)

/-- Modelled on Rcpp's headers (not among the sources): `List`, the elements of a
`VECSXP`. -/
abbrev RList := List RVec

/-- Modelled on R's API (not among the sources): `NA_INTEGER` and `NA_LOGICAL`, the C
`int` minimum. -/
def NA_INTEGER : Int := -2147483648

/-- Modelled on R's API (not among the sources): `Rf_length`. -/
def SEXP.length : SEXP → Nat
  | .NILSXP => 0
  | .atomic (.LGLSXP xs) => xs.length
  | .atomic (.INTSXP xs) => xs.length
  | .atomic (.REALSXP xs) => xs.length
  | .atomic (.STRSXP xs) => xs.length
  | .atomic (.RAWSXP xs) => xs.length
  | .VECSXP xs => xs.length

/-! ## C++ exceptions and the outcome of a `.Call` -/

/-- Modelled on Rcpp's headers (not among the sources): the exceptions the catch
clauses of `END_RCPP` tell apart. -/
inductive CppException
  | InterruptedException
  | LongjumpException (token : Nat)
  | Rcpp_exception (what : String)
  | std_exception (what : String)
  | other
  deriving DecidableEq, Repr

/-- An exception that reports an error, as opposed to the two exceptions
Rcpp uses to carry a user interrupt and an R unwind through C++ frames. -/
def CppException.isError : CppException → Bool
  | .InterruptedException => false
  | .LongjumpException _ => false
  | _ => true

/-- Modelled on Rcpp's headers (not among the sources): the condition object
`END_RCPP` hands to R's `stop`, by the function that builds it. -/
inductive RCondition
  | rcpp_exception_to_r_condition (what : String)
  | exception_to_r_condition (what : String)
  | string_to_try_error (msg : String)
  deriving DecidableEq, Repr

/-- How a call of an exported wrapper ends, seen from the R session.
`uncaught` is a C++ exception leaving the `extern "C"` function, which
terminates the process; the other non-`returned` cases hand control back to R
as a condition. -/
inductive Outcome
  | returned (v : SEXP)
  | stop (cond : RCondition)
  | Rf_onintr
  | R_ContinueUnwind (token : Nat)
  | uncaught (e : CppException)
  deriving DecidableEq, Repr

/-- The call gave control back to R (value, error or interrupt) instead of
letting an exception escape. -/
def Outcome.handedBack : Outcome → Bool
  | .uncaught _ => false
  | _ => true

/-! ## `Rcpp::as` and `Rcpp::wrap` -/

/-- Modelled on Rcpp's headers (not among the sources): `not_compatible`, a
`std::exception`. -/
def not_compatible (what : String) : CppException := .std_exception what

/-- Modelled on Rcpp's headers (not among the sources): `as<std::string>`.
Exactly one string element, else `not_compatible`.
`NA_character_` reads as the characters of the `NA` string. -/
def as_string : SEXP → Except CppException String
  | .atomic (.STRSXP [x]) => .ok (x.getD "NA")
  | _ => .error (not_compatible "Expecting a single string value")

/-- Modelled on Rcpp's headers (not among the sources): `as<bool>`.  Exactly one
element, cast to logical, then nonzero is
`true` (so `NA` reads as `true`).  Strings and lists are not cast. -/
def as_bool (x : SEXP) : Except CppException Bool :=
  if x.length ≠ 1 then .error (not_compatible "Expecting a single value")
  else match x with
    | .atomic (.LGLSXP [b]) => .ok (b ≠ 0)
    | .atomic (.INTSXP [i]) => .ok (i ≠ 0)
    | .atomic (.REALSXP [d]) => .ok (d ≠ 0)
    | .atomic (.RAWSXP [r]) => .ok (r ≠ 0)
    | _ => .error (not_compatible "Not compatible with requested type")

/-- Modelled on R's API (not among the sources): `Rf_coerceVector(x, RAWSXP)` on one
element of an integer or numeric
vector: `NA` and values outside `0..255` become `0`. -/
def coerceToRaw (i : Int) : Fin 256 :=
  if h : 0 ≤ i ∧ i < 256 then ⟨i.toNat, by omega⟩ else 0

/-- Modelled on R's API (not among the sources): `Rf_coerceVector(x, RAWSXP)` on one
element of a logical vector: `NA`
becomes `0`, any other payload is cast to a byte. -/
def coerceLogicalToRaw (b : Int) : Fin 256 :=
  if b = NA_INTEGER then 0 else ⟨(b % 256).toNat, by omega⟩

/-- Modelled on Rcpp's headers (not among the sources): `as<RawVector>` (the
`RawVector(SEXP)` constructor).  A raw vector is
taken as is, logical, integer and numeric vectors are coerced, anything else
is `not_compatible`. -/
def as_RawVector : SEXP → Except CppException RawVector
  | .atomic (.RAWSXP xs) => .ok xs
  | .atomic (.LGLSXP xs) => .ok (xs.map coerceLogicalToRaw)
  | .atomic (.INTSXP xs) => .ok (xs.map coerceToRaw)
  | .atomic (.REALSXP xs) => .ok (xs.map coerceToRaw)
  | _ => .error (not_compatible "Not compatible with requested type")

/-- Modelled on Rcpp's headers (not among the sources): `wrap(bool)`, a length-one
logical vector. -/
def wrap_bool (b : Bool) : SEXP := .atomic (.LGLSXP [if b then 1 else 0])

/-- Modelled on Rcpp's headers (not among the sources): `wrap(int)`, a length-one
integer vector. -/
def wrap_int (i : Int) : SEXP := .atomic (.INTSXP [i])

/-- Modelled on Rcpp's headers (not among the sources): `wrap(ssize_t)`; `ssize_t` is
`long`, wrapped as a length-one numeric vector. -/
def wrap_ssize_t (n : Int) : SEXP := .atomic (.REALSXP [n])

/-- Modelled on Rcpp's headers (not among the sources): `wrap(CharacterVector)`, the
underlying `STRSXP`. -/
def wrap_CharacterVector (v : CharacterVector) : SEXP := .atomic (.STRSXP v)

/-- Modelled on Rcpp's headers (not among the sources): `wrap(RawVector)`, the
underlying `RAWSXP`. -/
def wrap_RawVector (v : RawVector) : SEXP := .atomic (.RAWSXP v)

/-- Modelled on Rcpp's headers (not among the sources): `wrap(List)`, the underlying
`VECSXP`. -/
def wrap_List (l : RList) : SEXP := .VECSXP l

/-! ## The core operations (declared in the source, defined elsewhere) -/

/-- One call of a core function: which of the eight declared functions, with
its arguments in declaration order (source lines 9, 21, 35, 48, 60, 73, 86, 99). -/
inductive CoreCall
  | has_xattrs (path : String) (follow_symlinks : Bool)
  | rcpp_set_xattr (path name : String) (value : RawVector) (follow_symlinks : Bool)
  | rcpp_rm_xattr (path name : String) (follow_symlinks : Bool)
  | rcpp_list_xattrs (path : String) (follow_symlinks : Bool)
  | rcpp_get_xattr (path name : String) (follow_symlinks : Bool)
  | get_xattr_raw (path name : String) (follow_symlinks : Bool)
  | get_xattr_size (path name : String) (follow_symlinks : Bool)
  | rcpp_get_xattr_df (path : String) (follow_symlinks : Bool)
  deriving DecidableEq, Repr

/-- The declared return type of each core function: `bool`, `int`, `int`,
`CharacterVector`, `CharacterVector`, `RawVector`, `ssize_t`, `List`. -/
def CoreCall.Ret : CoreCall → Type
  | .has_xattrs .. => Bool
  | .rcpp_set_xattr .. => Int
  | .rcpp_rm_xattr .. => Int
  | .rcpp_list_xattrs .. => CharacterVector
  | .rcpp_get_xattr .. => CharacterVector
  | .get_xattr_raw .. => RawVector
  | .get_xattr_size .. => Int
  | .rcpp_get_xattr_df .. => RList

/-- The core functions, whose bodies are not in `RcppExports.cpp`: any
behaviour on a host state `H` (file system, R session), returning a value of
the declared type or throwing. -/
abbrev Core (H : Type) := (c : CoreCall) → H → Except CppException c.Ret × H

/-- The state a wrapper runs in: the host state the core and the R API act
on, and a record of the core calls made so far (bookkeeping only; nothing
reads it). -/
structure Session (H : Type) where
  host : H
  calls : List CoreCall

/-- A C++ computation: it may change the state and either yields a value or
throws; state changes made before a throw are kept. -/
def Cpp (H : Type) (α : Type) : Type := Session H → Except CppException α × Session H

/-- Sequencing of C++ statements: a throw skips what follows. -/
def Cpp.bind {H α β : Type} (m : Cpp H α) (f : α → Cpp H β) : Cpp H β := fun s =>
  match m s with
  | (.ok a, s1) => f a s1
  | (.error e, s1) => (.error e, s1)

instance {H : Type} : Monad (Cpp H) where
  pure a := fun s => (.ok a, s)
  bind := Cpp.bind

/-- A conversion that may throw, run as a statement. -/
instance {H : Type} : MonadLift (Except CppException) (Cpp H) where
  monadLift x := fun s => (x, s)

/-- Calling a core function: the core runs on the host state and the call is recorded. -/
def Core.invoke {H : Type} (core : Core H) (c : CoreCall) : Cpp H c.Ret := fun s =>
  ((core c s.host).1, { host := (core c s.host).2, calls := s.calls ++ [c] })

/-- Line 9: `bool has_xattrs(const std::string path, bool follow_symlinks);` -/
def has_xattrs {H : Type} (core : Core H) (path : String) (follow_symlinks : Bool) : Cpp H Bool :=
  core.invoke (.has_xattrs path follow_symlinks)

/-- Line 21: `int rcpp_set_xattr(std::string path, std::string name, RawVector value, bool follow_symlinks);` -/
def rcpp_set_xattr {H : Type} (core : Core H) (path name : String) (value : RawVector)
    (follow_symlinks : Bool) : Cpp H Int :=
  core.invoke (.rcpp_set_xattr path name value follow_symlinks)

/-- Line 35: `int rcpp_rm_xattr(std::string path, std::string name, bool follow_symlinks);` -/
def rcpp_rm_xattr {H : Type} (core : Core H) (path name : String) (follow_symlinks : Bool) :
    Cpp H Int :=
  core.invoke (.rcpp_rm_xattr path name follow_symlinks)

/-- Line 48: `CharacterVector rcpp_list_xattrs(const std::string path, bool follow_symlinks);` -/
def rcpp_list_xattrs {H : Type} (core : Core H) (path : String) (follow_symlinks : Bool) :
    Cpp H CharacterVector :=
  core.invoke (.rcpp_list_xattrs path follow_symlinks)

/-- Line 60: `CharacterVector rcpp_get_xattr(const std::string path, std::string name, bool follow_symlinks);` -/
def rcpp_get_xattr {H : Type} (core : Core H) (path name : String) (follow_symlinks : Bool) :
    Cpp H CharacterVector :=
  core.invoke (.rcpp_get_xattr path name follow_symlinks)

/-- Line 73: `RawVector get_xattr_raw(const std::string path, std::string name, bool follow_symlinks);` -/
def get_xattr_raw {H : Type} (core : Core H) (path name : String) (follow_symlinks : Bool) :
    Cpp H RawVector :=
  core.invoke (.get_xattr_raw path name follow_symlinks)

/-- Line 86: `ssize_t get_xattr_size(const std::string path, std::string name, bool follow_symlinks);` -/
def get_xattr_size {H : Type} (core : Core H) (path name : String) (follow_symlinks : Bool) :
    Cpp H Int :=
  core.invoke (.get_xattr_size path name follow_symlinks)

/-- Line 99: `List rcpp_get_xattr_df(const std::string path, bool follow_symlinks);` -/
def rcpp_get_xattr_df {H : Type} (core : Core H) (path : String) (follow_symlinks : Bool) :
    Cpp H RList :=
  core.invoke (.rcpp_get_xattr_df path follow_symlinks)

/-! ## `Rcpp::RNGScope` and `BEGIN_RCPP` / `END_RCPP` -/

/-- The two R API calls `Rcpp::RNGScope` makes, as parameters: what they do to
the host state is left open. -/
structure RApi (H : Type) where
  GetRNGstate : H → H
  PutRNGstate : H → H

/-- Modelled on Rcpp's headers (not among the sources): the statement
`Rcpp::RNGScope rcpp_rngScope_gen;` around the rest of the block.  The
constructor calls `GetRNGstate`, the destructor `PutRNGstate`, and the
destructor runs whether the block returns or throws. -/
def RNGScope {H α : Type} (R : RApi H) (body : Cpp H α) : Cpp H α := fun s =>
  let r := body { s with host := R.GetRNGstate s.host }
  (r.1, { r.2 with host := R.PutRNGstate r.2.host })

/-- The catch clauses of a C++ `try` block, by the type they name. -/
inductive CatchClause
  | InterruptedException
  | LongjumpException
  | Rcpp_exception
  | std_exception
  | ellipsis
  deriving DecidableEq, Repr

/-- Modelled on Rcpp's headers (not among the sources): whether a clause catches an
exception (`Rcpp::exception` derives from
`std::exception`; `catch (...)` catches everything). -/
def CatchClause.catches : CatchClause → CppException → Bool
  | .InterruptedException, .InterruptedException => true
  | .LongjumpException, .LongjumpException _ => true
  | .Rcpp_exception, .Rcpp_exception _ => true
  | .std_exception, .std_exception _ => true
  | .std_exception, .Rcpp_exception _ => true
  | .ellipsis, _ => true
  | _, _ => false

/-- Modelled on Rcpp's headers (not among the sources): what `END_RCPP` does once a
clause has caught: an interrupt goes to
`Rf_onintr`, a captured R unwind is resumed, every other exception is turned
into a condition and `stop(condition)` is evaluated (the last line also
stands for the pairs of clause and exception that cannot occur). -/
def CatchClause.handle : CatchClause → CppException → Outcome
  | .InterruptedException, _ => .Rf_onintr
  | .LongjumpException, .LongjumpException token => .R_ContinueUnwind token
  | .Rcpp_exception, .Rcpp_exception what => .stop (.rcpp_exception_to_r_condition what)
  | .std_exception, .std_exception what => .stop (.exception_to_r_condition what)
  | .std_exception, .Rcpp_exception what => .stop (.exception_to_r_condition what)
  | _, _ => .stop (.string_to_try_error "c++ exception (unknown reason)")

/-- Catch clauses are tried in order: the first clause that catches handles
the exception; with no such clause the exception leaves the function. -/
def dispatch (clauses : List CatchClause) (e : CppException) : Outcome :=
  match clauses.find? (fun c => c.catches e) with
  | some c => c.handle e
  | none => .uncaught e

/-- A `try` block with catch clauses: a normal return passes through, an
exception goes to the clauses. -/
def tryCatch {H : Type} (clauses : List CatchClause) (body : Cpp H SEXP) :
    Session H → Outcome × Session H := fun s =>
  match body s with
  | (.ok v, s1) => (.returned v, s1)
  | (.error e, s1) => (dispatch clauses e, s1)

/-- Modelled from the spec: the catch clauses between `BEGIN_RCPP` and
`END_RCPP`.  The two macros come from Rcpp's headers, which are not among the
sources; the clauses are those of Rcpp's published macro and end in
`catch (...)`, which is what the specification asks of an entry point (errors
surface to the caller, the host process is never crashed). -/
def END_RCPP : List CatchClause :=
  [.InterruptedException, .LongjumpException, .Rcpp_exception, .std_exception, .ellipsis]

/-- The block `BEGIN_RCPP body END_RCPP`: a `try` block with the clauses of `END_RCPP`. -/
def BEGIN_RCPP {H : Type} (body : Cpp H SEXP) : Session H → Outcome × Session H :=
  tryCatch END_RCPP body

/-! ## The exported wrappers (source lines 8 to 109) -/

/-- The wrapper `_xattrs_has_xattrs(SEXP pathSEXP, SEXP follow_symlinksSEXP)`, lines 10 to 19. -/
def _xattrs_has_xattrs {H : Type} (R : RApi H) (core : Core H)
    (pathSEXP follow_symlinksSEXP : SEXP) : Session H → Outcome × Session H :=
  BEGIN_RCPP (RNGScope R (do
    let path ← as_string pathSEXP
    let follow_symlinks ← as_bool follow_symlinksSEXP
    let rcpp_result_gen := wrap_bool (← has_xattrs core path follow_symlinks)
    return rcpp_result_gen))

/-- The wrapper `_xattrs_rcpp_set_xattr(SEXP pathSEXP, SEXP nameSEXP, SEXP valueSEXP,
SEXP follow_symlinksSEXP)`, lines 22 to 33. -/
def _xattrs_rcpp_set_xattr {H : Type} (R : RApi H) (core : Core H)
    (pathSEXP nameSEXP valueSEXP follow_symlinksSEXP : SEXP) : Session H → Outcome × Session H :=
  BEGIN_RCPP (RNGScope R (do
    let path ← as_string pathSEXP
    let name ← as_string nameSEXP
    let value ← as_RawVector valueSEXP
    let follow_symlinks ← as_bool follow_symlinksSEXP
    let rcpp_result_gen := wrap_int (← rcpp_set_xattr core path name value follow_symlinks)
    return rcpp_result_gen))

/-- The wrapper `_xattrs_rcpp_rm_xattr(SEXP pathSEXP, SEXP nameSEXP, SEXP follow_symlinksSEXP)`,
lines 36 to 46. -/
def _xattrs_rcpp_rm_xattr {H : Type} (R : RApi H) (core : Core H)
    (pathSEXP nameSEXP follow_symlinksSEXP : SEXP) : Session H → Outcome × Session H :=
  BEGIN_RCPP (RNGScope R (do
    let path ← as_string pathSEXP
    let name ← as_string nameSEXP
    let follow_symlinks ← as_bool follow_symlinksSEXP
    let rcpp_result_gen := wrap_int (← rcpp_rm_xattr core path name follow_symlinks)
    return rcpp_result_gen))

/-- The wrapper `_xattrs_rcpp_list_xattrs(SEXP pathSEXP, SEXP follow_symlinksSEXP)`, lines 49 to 58. -/
def _xattrs_rcpp_list_xattrs {H : Type} (R : RApi H) (core : Core H)
    (pathSEXP follow_symlinksSEXP : SEXP) : Session H → Outcome × Session H :=
  BEGIN_RCPP (RNGScope R (do
    let path ← as_string pathSEXP
    let follow_symlinks ← as_bool follow_symlinksSEXP
    let rcpp_result_gen := wrap_CharacterVector (← rcpp_list_xattrs core path follow_symlinks)
    return rcpp_result_gen))

/-- The wrapper `_xattrs_rcpp_get_xattr(SEXP pathSEXP, SEXP nameSEXP, SEXP follow_symlinksSEXP)`,
lines 61 to 71. -/
def _xattrs_rcpp_get_xattr {H : Type} (R : RApi H) (core : Core H)
    (pathSEXP nameSEXP follow_symlinksSEXP : SEXP) : Session H → Outcome × Session H :=
  BEGIN_RCPP (RNGScope R (do
    let path ← as_string pathSEXP
    let name ← as_string nameSEXP
    let follow_symlinks ← as_bool follow_symlinksSEXP
    let rcpp_result_gen := wrap_CharacterVector (← rcpp_get_xattr core path name follow_symlinks)
    return rcpp_result_gen))

/-- The wrapper `_xattrs_get_xattr_raw(SEXP pathSEXP, SEXP nameSEXP, SEXP follow_symlinksSEXP)`,
lines 74 to 84. -/
def _xattrs_get_xattr_raw {H : Type} (R : RApi H) (core : Core H)
    (pathSEXP nameSEXP follow_symlinksSEXP : SEXP) : Session H → Outcome × Session H :=
  BEGIN_RCPP (RNGScope R (do
    let path ← as_string pathSEXP
    let name ← as_string nameSEXP
    let follow_symlinks ← as_bool follow_symlinksSEXP
    let rcpp_result_gen := wrap_RawVector (← get_xattr_raw core path name follow_symlinks)
    return rcpp_result_gen))

/-- The wrapper `_xattrs_get_xattr_size(SEXP pathSEXP, SEXP nameSEXP, SEXP follow_symlinksSEXP)`,
lines 87 to 97. -/
def _xattrs_get_xattr_size {H : Type} (R : RApi H) (core : Core H)
    (pathSEXP nameSEXP follow_symlinksSEXP : SEXP) : Session H → Outcome × Session H :=
  BEGIN_RCPP (RNGScope R (do
    let path ← as_string pathSEXP
    let name ← as_string nameSEXP
    let follow_symlinks ← as_bool follow_symlinksSEXP
    let rcpp_result_gen := wrap_ssize_t (← get_xattr_size core path name follow_symlinks)
    return rcpp_result_gen))

/-- The wrapper `_xattrs_rcpp_get_xattr_df(SEXP pathSEXP, SEXP follow_symlinksSEXP)`, lines 100 to 109. -/
def _xattrs_rcpp_get_xattr_df {H : Type} (R : RApi H) (core : Core H)
    (pathSEXP follow_symlinksSEXP : SEXP) : Session H → Outcome × Session H :=
  BEGIN_RCPP (RNGScope R (do
    let path ← as_string pathSEXP
    let follow_symlinks ← as_bool follow_symlinksSEXP
    let rcpp_result_gen := wrap_List (← rcpp_get_xattr_df core path follow_symlinks)
    return rcpp_result_gen))

/-! ## Declarations as data, and the registration table (source lines 111 to 126) -/

/-- The C++ types that occur in the declarations of the core functions. -/
inductive CType
  | std_string
  | bool
  | int
  | ssize_t
  | RawVector
  | CharacterVector
  | List
  deriving DecidableEq, Repr

/-- The types that belong to the host binding library (Rcpp handles on R
objects) rather than to plain C++. -/
def CType.isRcppType : CType → Bool
  | .RawVector => true
  | .CharacterVector => true
  | .List => true
  | _ => false

/-- A function declaration: return type, name, parameters (a `const` on a
by-value parameter is dropped). -/
structure Declaration where
  ret : CType
  name : String
  params : List (CType × String)
  deriving DecidableEq, Repr

/-- The eight exported wrappers, as the function pointers of the table. -/
inductive DL_FUNC
  | _xattrs_has_xattrs
  | _xattrs_rcpp_set_xattr
  | _xattrs_rcpp_rm_xattr
  | _xattrs_rcpp_list_xattrs
  | _xattrs_rcpp_get_xattr
  | _xattrs_get_xattr_raw
  | _xattrs_get_xattr_size
  | _xattrs_rcpp_get_xattr_df
  deriving DecidableEq, Repr

/-- Every wrapper, in source order. -/
def DL_FUNC.all : List DL_FUNC :=
  [._xattrs_has_xattrs, ._xattrs_rcpp_set_xattr, ._xattrs_rcpp_rm_xattr,
   ._xattrs_rcpp_list_xattrs, ._xattrs_rcpp_get_xattr, ._xattrs_get_xattr_raw,
   ._xattrs_get_xattr_size, ._xattrs_rcpp_get_xattr_df]

/-- The linker symbol of a wrapper. -/
def DL_FUNC.symbol : DL_FUNC → String
  | ._xattrs_has_xattrs => "_xattrs_has_xattrs"
  | ._xattrs_rcpp_set_xattr => "_xattrs_rcpp_set_xattr"
  | ._xattrs_rcpp_rm_xattr => "_xattrs_rcpp_rm_xattr"
  | ._xattrs_rcpp_list_xattrs => "_xattrs_rcpp_list_xattrs"
  | ._xattrs_rcpp_get_xattr => "_xattrs_rcpp_get_xattr"
  | ._xattrs_get_xattr_raw => "_xattrs_get_xattr_raw"
  | ._xattrs_get_xattr_size => "_xattrs_get_xattr_size"
  | ._xattrs_rcpp_get_xattr_df => "_xattrs_rcpp_get_xattr_df"

/-- The `SEXP` parameters of a wrapper, in order (lines 10, 22, 36, 49, 61, 74, 87, 100). -/
def DL_FUNC.params : DL_FUNC → List String
  | ._xattrs_has_xattrs => ["pathSEXP", "follow_symlinksSEXP"]
  | ._xattrs_rcpp_set_xattr => ["pathSEXP", "nameSEXP", "valueSEXP", "follow_symlinksSEXP"]
  | ._xattrs_rcpp_rm_xattr => ["pathSEXP", "nameSEXP", "follow_symlinksSEXP"]
  | ._xattrs_rcpp_list_xattrs => ["pathSEXP", "follow_symlinksSEXP"]
  | ._xattrs_rcpp_get_xattr => ["pathSEXP", "nameSEXP", "follow_symlinksSEXP"]
  | ._xattrs_get_xattr_raw => ["pathSEXP", "nameSEXP", "follow_symlinksSEXP"]
  | ._xattrs_get_xattr_size => ["pathSEXP", "nameSEXP", "follow_symlinksSEXP"]
  | ._xattrs_rcpp_get_xattr_df => ["pathSEXP", "follow_symlinksSEXP"]

/-- The declaration of the core function a wrapper calls (lines 9, 21, 35, 48, 60, 73, 86, 99). -/
def DL_FUNC.core : DL_FUNC → Declaration
  | ._xattrs_has_xattrs =>
    ⟨.bool, "has_xattrs", [(.std_string, "path"), (.bool, "follow_symlinks")]⟩
  | ._xattrs_rcpp_set_xattr =>
    ⟨.int, "rcpp_set_xattr", [(.std_string, "path"), (.std_string, "name"),
      (.RawVector, "value"), (.bool, "follow_symlinks")]⟩
  | ._xattrs_rcpp_rm_xattr =>
    ⟨.int, "rcpp_rm_xattr", [(.std_string, "path"), (.std_string, "name"),
      (.bool, "follow_symlinks")]⟩
  | ._xattrs_rcpp_list_xattrs =>
    ⟨.CharacterVector, "rcpp_list_xattrs", [(.std_string, "path"), (.bool, "follow_symlinks")]⟩
  | ._xattrs_rcpp_get_xattr =>
    ⟨.CharacterVector, "rcpp_get_xattr", [(.std_string, "path"), (.std_string, "name"),
      (.bool, "follow_symlinks")]⟩
  | ._xattrs_get_xattr_raw =>
    ⟨.RawVector, "get_xattr_raw", [(.std_string, "path"), (.std_string, "name"),
      (.bool, "follow_symlinks")]⟩
  | ._xattrs_get_xattr_size =>
    ⟨.ssize_t, "get_xattr_size", [(.std_string, "path"), (.std_string, "name"),
      (.bool, "follow_symlinks")]⟩
  | ._xattrs_rcpp_get_xattr_df =>
    ⟨.List, "rcpp_get_xattr_df", [(.std_string, "path"), (.bool, "follow_symlinks")]⟩

/-- Modelled on R's API (not among the sources): one row of an `R_CallMethodDef`
table; `none` is `NULL`. -/
structure R_CallMethodDef where
  name : Option String
  func : Option DL_FUNC
  numArgs : Nat
  deriving DecidableEq, Repr

/-- The table `static const R_CallMethodDef CallEntries[]`, lines 111 to 121. -/
def CallEntries : List R_CallMethodDef :=
  [⟨some "_xattrs_has_xattrs", some ._xattrs_has_xattrs, 2⟩,
   ⟨some "_xattrs_rcpp_set_xattr", some ._xattrs_rcpp_set_xattr, 4⟩,
   ⟨some "_xattrs_rcpp_rm_xattr", some ._xattrs_rcpp_rm_xattr, 3⟩,
   ⟨some "_xattrs_rcpp_list_xattrs", some ._xattrs_rcpp_list_xattrs, 2⟩,
   ⟨some "_xattrs_rcpp_get_xattr", some ._xattrs_rcpp_get_xattr, 3⟩,
   ⟨some "_xattrs_get_xattr_raw", some ._xattrs_get_xattr_raw, 3⟩,
   ⟨some "_xattrs_get_xattr_size", some ._xattrs_get_xattr_size, 3⟩,
   ⟨some "_xattrs_rcpp_get_xattr_df", some ._xattrs_rcpp_get_xattr_df, 2⟩,
   ⟨none, none, 0⟩]

/-- Modelled on R's API (not among the sources): what R keeps about a loaded
library: the registered `.Call` routines and whether unregistered symbols may
still be looked up by name. -/
structure DllInfo where
  CallSymbols : List R_CallMethodDef
  useDynamicSymbols : Bool
  deriving DecidableEq, Repr

/-- Modelled on R's API (not among the sources): `R_registerRoutines(dll, NULL,
callRoutines, NULL, NULL)`; R reads the
table up to the first row whose name is `NULL`. -/
def R_registerRoutines (dll : DllInfo) (callRoutines : List R_CallMethodDef) : DllInfo :=
  { dll with CallSymbols := callRoutines.takeWhile (fun e => e.name.isSome) }

/-- Modelled on R's API (not among the sources): `R_useDynamicSymbols(dll, value)`. -/
def R_useDynamicSymbols (dll : DllInfo) (value : Bool) : DllInfo :=
  { dll with useDynamicSymbols := value }

/-- The function `R_init_xattrs(DllInfo *dll)`, lines 123 to 126. -/
def R_init_xattrs (dll : DllInfo) : DllInfo :=
  R_useDynamicSymbols (R_registerRoutines dll CallEntries) false

/-- A library as R hands it to its init function: nothing registered, dynamic lookup on. -/
def DllInfo.fresh : DllInfo := ⟨[], true⟩

/-- The arguments of a `.Call`, by the parameter they are bound to; a wrapper
reads only the parameters it has. -/
structure Args where
  pathSEXP : SEXP
  nameSEXP : SEXP
  valueSEXP : SEXP
  follow_symlinksSEXP : SEXP
  deriving DecidableEq, Repr

/-- Calling through a function pointer of the table. -/
def DL_FUNC.call {H : Type} (R : RApi H) (core : Core H) :
    DL_FUNC → Args → Session H → Outcome × Session H
  | ._xattrs_has_xattrs, a => Xattrs._xattrs_has_xattrs R core a.pathSEXP a.follow_symlinksSEXP
  | ._xattrs_rcpp_set_xattr, a =>
    Xattrs._xattrs_rcpp_set_xattr R core a.pathSEXP a.nameSEXP a.valueSEXP a.follow_symlinksSEXP
  | ._xattrs_rcpp_rm_xattr, a =>
    Xattrs._xattrs_rcpp_rm_xattr R core a.pathSEXP a.nameSEXP a.follow_symlinksSEXP
  | ._xattrs_rcpp_list_xattrs, a =>
    Xattrs._xattrs_rcpp_list_xattrs R core a.pathSEXP a.follow_symlinksSEXP
  | ._xattrs_rcpp_get_xattr, a =>
    Xattrs._xattrs_rcpp_get_xattr R core a.pathSEXP a.nameSEXP a.follow_symlinksSEXP
  | ._xattrs_get_xattr_raw, a =>
    Xattrs._xattrs_get_xattr_raw R core a.pathSEXP a.nameSEXP a.follow_symlinksSEXP
  | ._xattrs_get_xattr_size, a =>
    Xattrs._xattrs_get_xattr_size R core a.pathSEXP a.nameSEXP a.follow_symlinksSEXP
  | ._xattrs_rcpp_get_xattr_df, a =>
    Xattrs._xattrs_rcpp_get_xattr_df R core a.pathSEXP a.follow_symlinksSEXP

/-! ## The external interface of the specification (section 6) -/

/-- The caller-facing operations the specification lists. -/
inductive InterfaceOp
  | has_attrs
  | set_attr
  | remove_attr
  | list_attrs
  | get_attr_text
  | get_attr_raw
  | get_attr_size
  | get_attrs_table
  deriving DecidableEq, Repr

/-- The operations of the interface, in the order the specification lists them. -/
def InterfaceOp.all : List InterfaceOp :=
  [.has_attrs, .set_attr, .remove_attr, .list_attrs, .get_attr_text, .get_attr_raw,
   .get_attr_size, .get_attrs_table]

/-- The parameters the specification gives each operation, in order. -/
def InterfaceOp.params : InterfaceOp → List String
  | .has_attrs => ["path", "follow_symlinks"]
  | .set_attr => ["path", "name", "value", "follow_symlinks"]
  | .remove_attr => ["path", "name", "follow_symlinks"]
  | .list_attrs => ["path", "follow_symlinks"]
  | .get_attr_text => ["path", "name", "follow_symlinks"]
  | .get_attr_raw => ["path", "name", "follow_symlinks"]
  | .get_attr_size => ["path", "name", "follow_symlinks"]
  | .get_attrs_table => ["path", "follow_symlinks"]

/-- The interface operation each wrapper implements. -/
def DL_FUNC.operation : DL_FUNC → InterfaceOp
  | ._xattrs_has_xattrs => .has_attrs
  | ._xattrs_rcpp_set_xattr => .set_attr
  | ._xattrs_rcpp_rm_xattr => .remove_attr
  | ._xattrs_rcpp_list_xattrs => .list_attrs
  | ._xattrs_rcpp_get_xattr => .get_attr_text
  | ._xattrs_get_xattr_raw => .get_attr_raw
  | ._xattrs_get_xattr_size => .get_attr_size
  | ._xattrs_rcpp_get_xattr_df => .get_attrs_table

/-- The name a wrapper gives a parameter, without the generated `SEXP` suffix. -/
def dropSEXP (p : String) : String := p.dropRight 4

/-! ## What a wrapper is expected to do, stated separately from the wrappers -/

/-- The core call a wrapper has to make for given arguments: each argument
converted to the declared parameter type, in the same position; or the
exception of the first conversion that throws. -/
def DL_FUNC.coreCall : DL_FUNC → Args → Except CppException CoreCall
  | ._xattrs_has_xattrs, a =>
    (as_string a.pathSEXP).bind fun path =>
    (as_bool a.follow_symlinksSEXP).bind fun follow_symlinks =>
    .ok (.has_xattrs path follow_symlinks)
  | ._xattrs_rcpp_set_xattr, a =>
    (as_string a.pathSEXP).bind fun path =>
    (as_string a.nameSEXP).bind fun name =>
    (as_RawVector a.valueSEXP).bind fun value =>
    (as_bool a.follow_symlinksSEXP).bind fun follow_symlinks =>
    .ok (.rcpp_set_xattr path name value follow_symlinks)
  | ._xattrs_rcpp_rm_xattr, a =>
    (as_string a.pathSEXP).bind fun path =>
    (as_string a.nameSEXP).bind fun name =>
    (as_bool a.follow_symlinksSEXP).bind fun follow_symlinks =>
    .ok (.rcpp_rm_xattr path name follow_symlinks)
  | ._xattrs_rcpp_list_xattrs, a =>
    (as_string a.pathSEXP).bind fun path =>
    (as_bool a.follow_symlinksSEXP).bind fun follow_symlinks =>
    .ok (.rcpp_list_xattrs path follow_symlinks)
  | ._xattrs_rcpp_get_xattr, a =>
    (as_string a.pathSEXP).bind fun path =>
    (as_string a.nameSEXP).bind fun name =>
    (as_bool a.follow_symlinksSEXP).bind fun follow_symlinks =>
    .ok (.rcpp_get_xattr path name follow_symlinks)
  | ._xattrs_get_xattr_raw, a =>
    (as_string a.pathSEXP).bind fun path =>
    (as_string a.nameSEXP).bind fun name =>
    (as_bool a.follow_symlinksSEXP).bind fun follow_symlinks =>
    .ok (.get_xattr_raw path name follow_symlinks)
  | ._xattrs_get_xattr_size, a =>
    (as_string a.pathSEXP).bind fun path =>
    (as_string a.nameSEXP).bind fun name =>
    (as_bool a.follow_symlinksSEXP).bind fun follow_symlinks =>
    .ok (.get_xattr_size path name follow_symlinks)
  | ._xattrs_rcpp_get_xattr_df, a =>
    (as_string a.pathSEXP).bind fun path =>
    (as_bool a.follow_symlinksSEXP).bind fun follow_symlinks =>
    .ok (.rcpp_get_xattr_df path follow_symlinks)

/-- The conversion of a core function's return value to an R value. -/
def CoreCall.wrap : (c : CoreCall) → c.Ret → SEXP
  | .has_xattrs .., r => wrap_bool r
  | .rcpp_set_xattr .., r => wrap_int r
  | .rcpp_rm_xattr .., r => wrap_int r
  | .rcpp_list_xattrs .., r => wrap_CharacterVector r
  | .rcpp_get_xattr .., r => wrap_CharacterVector r
  | .get_xattr_raw .., r => wrap_RawVector r
  | .get_xattr_size .., r => wrap_ssize_t r
  | .rcpp_get_xattr_df .., r => wrap_List r

/-- The `follow_symlinks` argument of a core call. -/
def CoreCall.follow_symlinks : CoreCall → Bool
  | .has_xattrs _ f => f
  | .rcpp_set_xattr _ _ _ f => f
  | .rcpp_rm_xattr _ _ f => f
  | .rcpp_list_xattrs _ f => f
  | .rcpp_get_xattr _ _ f => f
  | .get_xattr_raw _ _ f => f
  | .get_xattr_size _ _ f => f
  | .rcpp_get_xattr_df _ f => f

/-- The type that stands for a C++ type in this embedding. -/
def CType.denote : CType → Type
  | .std_string => String
  | .bool => Bool
  | .int => Int
  | .ssize_t => Int
  | .RawVector => Xattrs.RawVector
  | .CharacterVector => Xattrs.CharacterVector
  | .List => Xattrs.RList

/-- The C++ types of the arguments a core call carries, in order. -/
def CoreCall.argTypes : CoreCall → List CType
  | .has_xattrs .. => [.std_string, .bool]
  | .rcpp_set_xattr .. => [.std_string, .std_string, .RawVector, .bool]
  | .rcpp_rm_xattr .. => [.std_string, .std_string, .bool]
  | .rcpp_list_xattrs .. => [.std_string, .bool]
  | .rcpp_get_xattr .. => [.std_string, .std_string, .bool]
  | .get_xattr_raw .. => [.std_string, .std_string, .bool]
  | .get_xattr_size .. => [.std_string, .std_string, .bool]
  | .rcpp_get_xattr_df .. => [.std_string, .bool]

/-- The integer status code of a return value, for the two core functions
that return one (`rcpp_set_xattr`, `rcpp_rm_xattr`). -/
def CoreCall.statusCode : (c : CoreCall) → c.Ret → Option Int
  | .rcpp_set_xattr .., r => some r
  | .rcpp_rm_xattr .., r => some r
  | _, _ => none

/-- The core function a call names. -/
def CoreCall.function : CoreCall → String
  | .has_xattrs .. => "has_xattrs"
  | .rcpp_set_xattr .. => "rcpp_set_xattr"
  | .rcpp_rm_xattr .. => "rcpp_rm_xattr"
  | .rcpp_list_xattrs .. => "rcpp_list_xattrs"
  | .rcpp_get_xattr .. => "rcpp_get_xattr"
  | .get_xattr_raw .. => "get_xattr_raw"
  | .get_xattr_size .. => "get_xattr_size"
  | .rcpp_get_xattr_df .. => "rcpp_get_xattr_df"

/-- What a core call returned or threw, converted: the wrapped value on a
normal return. -/
def Core.result {H : Type} (core : Core H) (c : CoreCall) (h : H) : Except CppException SEXP :=
  match (core c h).1 with
  | .ok r => .ok (c.wrap r)
  | .error e => .error e

/-- What a call through the table is expected to do, in one expression: the
random-number state is synchronised around the call; when a conversion throws
the core is not called; otherwise the core is called once, on the converted
arguments, and its value is wrapped; any exception goes to the clauses of
`END_RCPP`. -/
def DL_FUNC.expected {H : Type} (R : RApi H) (core : Core H) (f : DL_FUNC) (a : Args)
    (s : Session H) : Outcome × Session H :=
  match f.coreCall a with
  | .error e =>
    (dispatch END_RCPP e, { host := R.PutRNGstate (R.GetRNGstate s.host), calls := s.calls })
  | .ok c =>
    (match core.result c (R.GetRNGstate s.host) with
      | .ok v => .returned v
      | .error e => dispatch END_RCPP e,
     { host := R.PutRNGstate (core c (R.GetRNGstate s.host)).2, calls := s.calls ++ [c] })

/-- A sequence of calls made through the table, one after the other. -/
def runCalls {H : Type} (R : RApi H) (core : Core H) :
    List (DL_FUNC × Args) → Session H → Session H
  | [], s => s
  | (f, a) :: rest, s => runCalls R core rest (f.call R core a s).2

/-! ## Concrete hosts and cores for closed examples -/

/-- A core that touches nothing and returns a fixed value of each declared type. -/
def idleCore {H : Type} : Core H := fun c h =>
  match c with
  | .has_xattrs .. => (.ok false, h)
  | .rcpp_set_xattr .. => (.ok (0 : Int), h)
  | .rcpp_rm_xattr .. => (.ok (0 : Int), h)
  | .rcpp_list_xattrs .. => (.ok [], h)
  | .rcpp_get_xattr .. => (.ok [], h)
  | .get_xattr_raw .. => (.ok [], h)
  | .get_xattr_size .. => (.ok (0 : Int), h)
  | .rcpp_get_xattr_df .. => (.ok [], h)

/-- A core that shows what it was called with: it appends the call it
receives to the host state (here a list of calls), and `has_xattrs` returns
the flag it was given. -/
def probeCore : Core (List CoreCall) := fun c h =>
  match c with
  | .has_xattrs _ follow_symlinks => (.ok follow_symlinks, h ++ [c])
  | .rcpp_set_xattr .. => (.ok (0 : Int), h ++ [c])
  | .rcpp_rm_xattr .. => (.ok (0 : Int), h ++ [c])
  | .rcpp_list_xattrs .. => (.ok [], h ++ [c])
  | .rcpp_get_xattr .. => (.ok [], h ++ [c])
  | .get_xattr_raw .. => (.ok [], h ++ [c])
  | .get_xattr_size .. => (.ok (0 : Int), h ++ [c])
  | .rcpp_get_xattr_df .. => (.ok [], h ++ [c])

/-- A core every function of which throws the given exception. -/
def throwingCore {H : Type} (e : CppException) : Core H := fun _ h => (.error e, h)

/-- Modelled on R's API (not among the sources): the random-number state of an R session
as far as the two calls of `RNGScope` touch it:
the variable `.Random.seed` of the global environment (`none`: unbound, as in
a session that has drawn no random number) and the generator's own seed. -/
structure RNGHost where
  Random_seed : Option Nat
  i_seed : Nat
  deriving DecidableEq, Repr

/-- Modelled on R's API (not among the sources): `GetRNGstate`, which loads
`.Random.seed` into the generator; when the
variable is unbound R seeds the generator itself, and `i_seed` stands for
that seed. -/
def GetRNGstate (h : RNGHost) : RNGHost :=
  match h.Random_seed with
  | some seed => { h with i_seed := seed }
  | none => h

/-- Modelled on R's API (not among the sources): `PutRNGstate`, which stores the
generator's seed into `.Random.seed`. -/
def PutRNGstate (h : RNGHost) : RNGHost :=
  { h with Random_seed := some h.i_seed }

/-- The R API on `RNGHost`. -/
def rngApi : RApi RNGHost := ⟨GetRNGstate, PutRNGstate⟩

/-- An R API without any effect, on any host. -/
def quietApi {H : Type} : RApi H := ⟨id, id⟩

/-- An R API without any effect, on a host without state. -/
def noApi : RApi Unit := ⟨id, id⟩

/-- Character scalar. -/
def mkString (s : String) : SEXP := .atomic (.STRSXP [some s])

/-- The arguments `(path, name, value, follow_symlinks)` as R values. -/
def mkArgs (path name : String) (value : RawVector) (follow_symlinks : Bool) : Args :=
  ⟨mkString path, mkString name, wrap_RawVector value, wrap_bool follow_symlinks⟩

end Xattrs

/-! # The core store, from the specification

`rcpp_set_xattr`, `get_xattr_raw` and `get_xattr_size` are declared in
`RcppExports.cpp` and defined in a file that is not among the sources.  What
follows models the three operations, and the path resolution they share,
from sections 3, 4.1 and 7 of the specification, on a file system given as a
value and with nothing else acting on it during a call.  What the operating
system answers to a write is part of that value.
-/

namespace XattrStore

/-- Modelled from the spec: `AttributeValue`, an opaque ordered sequence of
bytes (the body of the core is missing from the sources). -/
abbrev AttributeValue := List (Fin 256)

/-- Modelled from the spec: `AttributeName`, a non-empty string identifying
one attribute (the body of the core is missing from the sources). -/
structure AttributeName where
  name : String
  nonempty : name ≠ ""
  deriving DecidableEq

/-- Modelled from the spec: the error taxonomy of section 7 (the body of the
core is missing from the sources). -/
inductive XattrError
  | NotFoundError
  | AttributeNotFoundError
  | PermissionError
  | LimitExceededError
  | UnsupportedOperationError
  | ConcurrentModificationError
  | UnknownOSError
  deriving DecidableEq, Repr

/-- Modelled from the spec: the platform-specific limits the data model
refers to (name length, commonly 255 bytes; value length, commonly 64KB),
whether the platform can address a symbolic link itself, and how many links
the operating system follows in one resolution (the platform shims are
missing from the sources). -/
structure Platform where
  nameLimit : Nat
  valueLimit : Nat
  nofollowSupported : Bool
  maxLinks : Nat
  deriving DecidableEq, Repr

/-- Modelled from the spec: a file-system entry is a file or directory, or a
symbolic link to another path (the file system is the store of record; it is
not part of the sources). -/
inductive Node
  | entry
  | symlink (target : String)
  deriving DecidableEq, Repr

/-- Modelled from the spec: what the operating system may report when it
refuses the native call that writes an attribute: access denied, name or
value too large for the file system, a file system without extended
attributes, no attributes on symbolic links, or any other native error code
(the platform shims are missing from the sources). -/
inductive NativeRefusal
  | accessDenied
  | tooLarge
  | noXattrSupport
  | linkUnsupported
  | unrecognised (code : Nat)
  deriving DecidableEq, Repr

/-- Modelled from the spec: the translation of a native refusal into the
error taxonomy of section 7: `PermissionError`; `LimitExceededError` (name or
value too large, or filesystem lacks xattr support);
`UnsupportedOperationError` (no-follow on a filesystem without symlink-xattr
support); `UnknownOSError` for an unrecognised native error code. -/
def NativeRefusal.toError : NativeRefusal → XattrError
  | .accessDenied => .PermissionError
  | .tooLarge => .LimitExceededError
  | .noXattrSupport => .LimitExceededError
  | .linkUnsupported => .UnsupportedOperationError
  | .unrecognised _ => .UnknownOSError

/-- Modelled from the spec: the file system as the store sees it: which paths
exist, the attributes of each entry in platform order, and which writes of
an attribute to an entry the operating system refuses, and how (not part of
the sources). -/
structure FileSystem where
  node : String → Option Node
  attrs : String → List (AttributeName × AttributeValue)
  refusesSet : String → AttributeName → AttributeValue → Option NativeRefusal

/-- Modelled from the spec: following symbolic links to the entry a path
refers to; a missing path or a dangling link is `NotFoundError`, too
many links an unrecognised native error (the platform shims are missing from
the sources). -/
def follow (node : String → Option Node) : Nat → String → Except XattrError String
  | 0, _ => .error .UnknownOSError
  | links + 1, path =>
    match node path with
    | none => .error .NotFoundError
    | some .entry => .ok path
    | some (.symlink target) => follow node links target

/-- Modelled from the spec: resolution of an `AttributePath` per the symlink
policy.  With `followSymlinks` the referent is the target; without, the link
itself is, on platforms that support it, and `UnsupportedOperationError` is
reported otherwise (the body of the core is missing from the sources). -/
def resolve (P : Platform) (node : String → Option Node) (path : String)
    (followSymlinks : Bool) : Except XattrError String :=
  if followSymlinks then follow node (P.maxLinks + 1) path
  else
    match node path with
    | none => .error .NotFoundError
    | some .entry => .ok path
    | some (.symlink _) =>
      if P.nofollowSupported then .ok path else .error .UnsupportedOperationError

/-- Modelled from the spec: "creates or replaces an attribute": an existing
attribute keeps its place, a new one goes to the end (the body of the core is
missing from the sources). -/
def upsert (name : AttributeName) (value : AttributeValue) :
    List (AttributeName × AttributeValue) → List (AttributeName × AttributeValue)
  | [] => [(name, value)]
  | (n, v) :: rest =>
    if n = name then (name, value) :: rest else (n, v) :: upsert name value rest

/-- Modelled from the spec: `Set(path, name, value, followSymlinks)`: the
name-length and value-length limits are enforced before anything else; the
path is resolved under the symlink policy; the native call may then be
refused by the operating system, and the refusal is surfaced as a typed
error (`PermissionError`, the OS-reported `LimitExceededError`,
`UnsupportedOperationError`, `UnknownOSError`); a failure leaves the file
system as it was; success creates or replaces the attribute on the resolved
entry (the body of `rcpp_set_xattr` is missing from the sources). -/
def Set (P : Platform) (fs : FileSystem) (path : String) (name : AttributeName)
    (value : AttributeValue) (followSymlinks : Bool) : Except XattrError Unit × FileSystem :=
  if P.nameLimit < name.name.utf8ByteSize ∨ P.valueLimit < value.length then
    (.error .LimitExceededError, fs)
  else
    match resolve P fs.node path followSymlinks with
    | .error e => (.error e, fs)
    | .ok target =>
      match fs.refusesSet target name value with
      | some refusal => (.error refusal.toError, fs)
      | none =>
        (.ok (), { fs with attrs := Function.update fs.attrs target
                                      (upsert name value (fs.attrs target)) })

/-- A platform with the common limits. -/
def linux : Platform := ⟨255, 65536, true, 40⟩

/-- A file system with one file, `/tmp/f`, without attributes, and a link to
it, `/tmp/l`; the operating system refuses no write. -/
def oneFile : FileSystem :=
  ⟨fun p => if p = "/tmp/f" then some .entry
            else if p = "/tmp/l" then some (.symlink "/tmp/f") else none,
   fun _ => [],
   fun _ _ _ => none⟩

/-- The attribute name `a`. -/
def attr_a : AttributeName := ⟨"a", by decide⟩

/-- The file system `oneFile` as an unprivileged user of a Linux system sees
it: attributes on the link `/tmp/l` itself are not permitted, values of more
than 16 bytes do not fit, a name outside every attribute namespace (such as
`a`) is answered with the native code 95, and the file `/tmp/f` is not
writable. -/
def guardedFile : FileSystem :=
  { oneFile with
    refusesSet := fun target name value =>
      if target = "/tmp/l" then some .linkUnsupported
      else if 16 < value.length then some .tooLarge
      else if name.name = "a" then some (.unrecognised 95)
      else some .accessDenied }


/-- The attribute name `user.a`. -/
def user_a : AttributeName := ⟨"user.a", by decide⟩

end XattrStore

/-! # Theorems -/

namespace Xattrs

/-! ## Shared lemmas -/

/-- Every wrapper does what `DL_FUNC.expected` says. -/
theorem call_eq_expected {H : Type} (R : RApi H) (core : Core H) (f : DL_FUNC) (a : Args)
    (s : Session H) : f.call R core a s = f.expected R core a s := by
  cases f <;>
  simp only [DL_FUNC.call, DL_FUNC.expected, DL_FUNC.coreCall, _xattrs_has_xattrs,
    _xattrs_rcpp_set_xattr, _xattrs_rcpp_rm_xattr, _xattrs_rcpp_list_xattrs,
    _xattrs_rcpp_get_xattr, _xattrs_get_xattr_raw, _xattrs_get_xattr_size,
    _xattrs_rcpp_get_xattr_df, BEGIN_RCPP, tryCatch, RNGScope,
    bind, Cpp.bind, pure, liftM, monadLift, MonadLift.monadLift, Core.invoke, has_xattrs,
    rcpp_set_xattr, rcpp_rm_xattr, rcpp_list_xattrs, rcpp_get_xattr, get_xattr_raw,
    get_xattr_size, rcpp_get_xattr_df, Core.result, CoreCall.wrap, Except.bind] <;>
  cases as_string a.pathSEXP <;> try rfl
  all_goals (try cases as_string a.nameSEXP) <;> try rfl
  all_goals (try cases as_RawVector a.valueSEXP) <;> try rfl
  all_goals cases as_bool a.follow_symlinksSEXP <;> try rfl
  all_goals dsimp only
  all_goals (generalize core _ _ = x; obtain ⟨r, h⟩ := x; cases r <;> rfl)

/-- The core call a wrapper makes names the core function the wrapper declares. -/
theorem coreCall_function (f : DL_FUNC) (a : Args) (c : CoreCall)
    (h : f.coreCall a = .ok c) : c.function = f.core.name := by
  revert h
  cases f <;> simp only [DL_FUNC.coreCall] <;>
  cases as_string a.pathSEXP <;> cases as_string a.nameSEXP <;>
  cases as_RawVector a.valueSEXP <;> cases as_bool a.follow_symlinksSEXP <;>
  simp only [Except.bind] <;> intro h <;> cases h <;> rfl

/-- The flag a wrapper passes on is the conversion of the flag it received. -/
theorem coreCall_follow_symlinks (f : DL_FUNC) (a : Args) (c : CoreCall)
    (h : f.coreCall a = .ok c) : as_bool a.follow_symlinksSEXP = .ok c.follow_symlinks := by
  revert h
  cases f <;> simp only [DL_FUNC.coreCall] <;>
  cases as_string a.pathSEXP <;> cases as_string a.nameSEXP <;>
  cases as_RawVector a.valueSEXP <;> cases as_bool a.follow_symlinksSEXP <;>
  simp only [Except.bind] <;> intro h <;> cases h <;> rfl

/-- The clause `catch (...)` is among the clauses of `END_RCPP`: nothing passes them. -/
theorem dispatch_END_RCPP_handedBack (e : CppException) :
    (dispatch END_RCPP e).handedBack = true := by
  cases e <;> rfl

/-- What the clauses of `END_RCPP` make of each exception. -/
theorem dispatch_END_RCPP (e : CppException) :
    dispatch END_RCPP e =
      match e with
      | .InterruptedException => .Rf_onintr
      | .LongjumpException token => .R_ContinueUnwind token
      | .Rcpp_exception what => .stop (.rcpp_exception_to_r_condition what)
      | .std_exception what => .stop (.exception_to_r_condition what)
      | .other => .stop (.string_to_try_error "c++ exception (unknown reason)") := by
  cases e <;> rfl

/-- The clauses of `END_RCPP` never produce a return value. -/
theorem dispatch_END_RCPP_ne_returned (e : CppException) (v : SEXP) :
    dispatch END_RCPP e ≠ .returned v := by
  rw [dispatch_END_RCPP]
  cases e <;> simp

/-! ## The registration table -/

/-- C1: whatever R hands to `R_init_xattrs`, the routines registered
afterwards are, in order, one wrapper for each of the eight operations of the
external interface (has_attrs, set_attr, remove_attr, list_attrs,
get_attr_text, get_attr_raw, get_attr_size, get_attrs_table) and nothing else,
lookup of unregistered symbols is switched off, and every wrapper and the core
function it calls take the parameters the interface lists for the operation,
in that order. -/
theorem registered_entry_points_are_the_interface :
    (∀ dll : DllInfo,
      (R_init_xattrs dll).CallSymbols.map (fun e => e.func.map DL_FUNC.operation)
        = InterfaceOp.all.map some ∧
      (R_init_xattrs dll).useDynamicSymbols = false) ∧
    InterfaceOp.all.Nodup ∧
    (∀ op : InterfaceOp, op ∈ InterfaceOp.all) ∧
    (∀ f : DL_FUNC,
      f.params = f.operation.params.map (fun p => p ++ "SEXP") ∧
      f.core.params.map (fun p => p.2) = f.operation.params) ∧
    InterfaceOp.has_attrs.params = ["path", "follow_symlinks"] ∧
    InterfaceOp.list_attrs.params = ["path", "follow_symlinks"] ∧
    InterfaceOp.get_attrs_table.params = ["path", "follow_symlinks"] ∧
    InterfaceOp.remove_attr.params = ["path", "name", "follow_symlinks"] ∧
    InterfaceOp.get_attr_text.params = ["path", "name", "follow_symlinks"] ∧
    InterfaceOp.get_attr_raw.params = ["path", "name", "follow_symlinks"] ∧
    InterfaceOp.get_attr_size.params = ["path", "name", "follow_symlinks"] ∧
    InterfaceOp.set_attr.params = ["path", "name", "value", "follow_symlinks"] := by
  refine ⟨fun dll => ⟨rfl, rfl⟩, by decide, fun op => by cases op <;> decide,
    fun f => by cases f <;> decide, rfl, rfl, rfl, rfl, rfl, rfl, rfl, rfl⟩

/-- C9: `CallEntries` is eight named rows followed by the single row
`{NULL, NULL, 0}`; the eight names are pairwise distinct; each row points at
the wrapper whose symbol is the row's name; each row's argument count is the
number of parameters of that wrapper, which is the number of parameters of the
core function the wrapper calls; the counts are 2, 4, 3, 2, 3, 3, 3, 2; and
`R_init_xattrs` registers exactly the eight rows. -/
theorem CallEntries_consistent :
    CallEntries.length = 9 ∧
    CallEntries.drop 8 = [⟨none, none, 0⟩] ∧
    (∀ e ∈ CallEntries.take 8, e.name.isSome = true) ∧
    ((CallEntries.take 8).map (fun e => e.name)).Nodup ∧
    (CallEntries.take 8).map (fun e => e.func) = DL_FUNC.all.map some ∧
    (∀ e ∈ CallEntries.take 8,
      e.func.map DL_FUNC.symbol = e.name ∧
      e.func.map (fun f => f.params.length) = some e.numArgs ∧
      e.func.map (fun f => f.core.params.length) = some e.numArgs) ∧
    (CallEntries.take 8).map (fun e => e.numArgs) = [2, 4, 3, 2, 3, 3, 3, 2] ∧
    (∀ dll : DllInfo, (R_init_xattrs dll).CallSymbols = CallEntries.take 8) := by
  refine ⟨rfl, rfl, by decide, by decide, rfl, by decide, rfl, fun dll => rfl⟩

/-! ## The declared types of the core functions -/

/-- C8, as stated, fails: it is not the case that every core function the
wrappers call has only plain parameter and return types; `rcpp_set_xattr`
takes its value as an Rcpp `RawVector`, and `rcpp_list_xattrs` and
`rcpp_get_xattr_df` return an Rcpp `CharacterVector` and an Rcpp `List`. -/
theorem core_declarations_use_rcpp_types :
    (¬ ∀ f : DL_FUNC, f.core.ret.isRcppType = false ∧
        ∀ p ∈ f.core.params, p.1.isRcppType = false) ∧
    (CType.RawVector, "value") ∈ DL_FUNC._xattrs_rcpp_set_xattr.core.params ∧
    DL_FUNC._xattrs_rcpp_list_xattrs.core.ret = .CharacterVector ∧
    DL_FUNC._xattrs_rcpp_get_xattr_df.core.ret = .List := by
  refine ⟨fun h => ?_, by decide, rfl, rfl⟩
  exact absurd (h ._xattrs_rcpp_list_xattrs).1 (by decide)

/-- C8, amended: in every core declaration the path and the attribute name
are plain strings and `follow_symlinks` is a plain boolean; the only
parameter of an Rcpp type is the `RawVector value` of `rcpp_set_xattr`; the
return types are, in source order, `bool` for `has_xattrs`, `int` for
`rcpp_set_xattr`, `int` for `rcpp_rm_xattr`, `CharacterVector` for
`rcpp_list_xattrs`, `CharacterVector` for `rcpp_get_xattr`, `RawVector` for
`get_xattr_raw`, `ssize_t` for `get_xattr_size` and `List` for
`rcpp_get_xattr_df`; of these `bool`, `int` and `ssize_t` (and the
`std::string` of the parameters) are plain and `CharacterVector`, `RawVector`
and `List` are Rcpp types; and these are the types the wrappers pass and
receive. -/
theorem core_declarations_plain_except_vectors (f : DL_FUNC) :
    (∀ p ∈ f.core.params,
      (p.2 = "path" ∨ p.2 = "name" → p.1 = .std_string) ∧
      (p.2 = "follow_symlinks" → p.1 = .bool) ∧
      (p.1.isRcppType = true ↔ p = (.RawVector, "value"))) ∧
    ((CType.RawVector, "value") ∈ f.core.params ↔ f = ._xattrs_rcpp_set_xattr) ∧
    (f.core.ret.isRcppType = false ↔
      f ∈ [DL_FUNC._xattrs_has_xattrs, DL_FUNC._xattrs_rcpp_set_xattr,
           DL_FUNC._xattrs_rcpp_rm_xattr, DL_FUNC._xattrs_get_xattr_size]) ∧
    (f.core.ret.isRcppType = true ↔
      f ∈ [DL_FUNC._xattrs_rcpp_list_xattrs, DL_FUNC._xattrs_rcpp_get_xattr,
           DL_FUNC._xattrs_get_xattr_raw, DL_FUNC._xattrs_rcpp_get_xattr_df]) ∧
    DL_FUNC.all.map (fun g => (g.core.name, g.core.ret))
      = [("has_xattrs", .bool), ("rcpp_set_xattr", .int), ("rcpp_rm_xattr", .int),
         ("rcpp_list_xattrs", .CharacterVector), ("rcpp_get_xattr", .CharacterVector),
         ("get_xattr_raw", .RawVector), ("get_xattr_size", .ssize_t),
         ("rcpp_get_xattr_df", .List)] ∧
    DL_FUNC.all.map (fun g => g.core.params.map (fun p => p.1))
      = [[.std_string, .bool], [.std_string, .std_string, .RawVector, .bool],
         [.std_string, .std_string, .bool], [.std_string, .bool],
         [.std_string, .std_string, .bool], [.std_string, .std_string, .bool],
         [.std_string, .std_string, .bool], [.std_string, .bool]] ∧
    ([CType.std_string, .bool, .int, .ssize_t].map CType.isRcppType
        = [false, false, false, false] ∧
      [CType.RawVector, .CharacterVector, .List].map CType.isRcppType
        = [true, true, true]) ∧
    (∀ (a : Args) (c : CoreCall), f.coreCall a = .ok c →
      c.Ret = f.core.ret.denote ∧ c.argTypes = f.core.params.map (fun p => p.1)) := by
  refine ⟨by cases f <;> decide, by cases f <;> decide, by cases f <;> decide,
    by cases f <;> decide, by decide, by decide, by decide, ?_⟩
  intro a c h
  revert h
  cases f <;> simp only [DL_FUNC.coreCall] <;>
  cases as_string a.pathSEXP <;> cases as_string a.nameSEXP <;>
  cases as_RawVector a.valueSEXP <;> cases as_bool a.follow_symlinksSEXP <;>
  simp only [Except.bind] <;> intro h <;> cases h <;> exact ⟨rfl, rfl⟩

/-! ## The wrappers -/

/-- C2, as stated, fails: with a path argument that is not a string (the
integer vector `5`), `_xattrs_rcpp_set_xattr` does not call the core at all;
the conversion throws and the call ends in an R error. -/
theorem wrapper_skips_core_when_conversion_throws :
    (DL_FUNC.call noApi idleCore ._xattrs_rcpp_set_xattr
        ⟨.atomic (.INTSXP [5]), mkString "user.a", wrap_RawVector [1], wrap_bool true⟩
        ⟨(), []⟩).2.calls = [] ∧
    (DL_FUNC.call noApi idleCore ._xattrs_rcpp_set_xattr
        ⟨.atomic (.INTSXP [5]), mkString "user.a", wrap_RawVector [1], wrap_bool true⟩
        ⟨(), []⟩).1 = .stop (.exception_to_r_condition "Expecting a single string value") := by
  decide

/-- C2, amended: for every wrapper and every argument tuple whose arguments
convert to the declared parameter types, the wrapper calls the core function
of the same name exactly once, on the converted arguments in the same
positions; when the core returns normally the wrapper returns the conversion
of exactly that value; and for `rcpp_set_xattr` and `rcpp_rm_xattr` the value
returned is the core's integer code, so the wrapper returns the R integer `0`
exactly when the core returned `0`. -/
theorem wrapper_is_transparent_call {H : Type} (R : RApi H) (core : Core H) (f : DL_FUNC)
    (a : Args) (s : Session H) (c : CoreCall) (h : f.coreCall a = .ok c) :
    (f.call R core a s).2.calls = s.calls ++ [c] ∧
    c.function = f.core.name ∧
    f.symbol = "_xattrs_" ++ c.function ∧
    ∀ r : c.Ret, (core c (R.GetRNGstate s.host)).1 = .ok r →
      (f.call R core a s).1 = .returned (c.wrap r) ∧
      ∀ code : Int, c.statusCode r = some code →
        (f.call R core a s).1 = .returned (wrap_int code) ∧
        ((f.call R core a s).1 = .returned (wrap_int 0) ↔ code = 0) := by
  rw [call_eq_expected]
  refine ⟨by simp only [DL_FUNC.expected, h], coreCall_function f a c h, ?_, ?_⟩
  · rw [coreCall_function f a c h]
    cases f <;> decide
  intro r hr
  have hres : (f.expected R core a s).1 = .returned (c.wrap r) := by
    simp only [DL_FUNC.expected, h, Core.result, hr]
  refine ⟨hres, ?_⟩
  intro code hcode
  have hw : c.wrap r = wrap_int code := by
    cases c <;> simp only [CoreCall.statusCode, Option.some.injEq, reduceCtorEq] at hcode <;>
      subst hcode <;> rfl
  rw [hres, hw]
  refine ⟨rfl, ?_⟩
  simp [wrap_int]

/-- Witness for C2: a well-typed call of `_xattrs_rcpp_set_xattr`. -/
theorem wrapper_is_transparent_call_witness :
    (DL_FUNC.call noApi idleCore ._xattrs_rcpp_set_xattr
        (mkArgs "/tmp/f" "user.a" [1, 2] true) ⟨(), []⟩).2.calls
      = [] ++ [CoreCall.rcpp_set_xattr "/tmp/f" "user.a" [1, 2] true] ∧
    (DL_FUNC.call noApi idleCore ._xattrs_rcpp_set_xattr
        (mkArgs "/tmp/f" "user.a" [1, 2] true) ⟨(), []⟩).1 = .returned (wrap_int 0) :=
  have h := wrapper_is_transparent_call noApi idleCore ._xattrs_rcpp_set_xattr
    (mkArgs "/tmp/f" "user.a" [1, 2] true) ⟨(), []⟩
    (.rcpp_set_xattr "/tmp/f" "user.a" [1, 2] true) rfl
  ⟨h.1, ((h.2.2.2 (0 : Int) rfl).2 0 rfl).1⟩

/-- C3: no wrapper lets a C++ exception leave the function.  For every
wrapper, every argument tuple and every behaviour of the core: the call hands
control back to R; when a conversion throws, or the core throws, the
exception goes to the clauses of `END_RCPP`, and an exception that reports an
error ends in `stop(condition)`, an ordinary R error; the call returns a
value only when the arguments converted and the core returned normally, and
the value is the conversion of what the core returned. -/
theorem wrapper_never_lets_exception_escape {H : Type} (R : RApi H) (core : Core H)
    (f : DL_FUNC) (a : Args) (s : Session H) :
    (f.call R core a s).1.handedBack = true ∧
    (∀ e, f.coreCall a = .error e →
      (f.call R core a s).1 = dispatch END_RCPP e ∧ (f.call R core a s).2.calls = s.calls) ∧
    (∀ c e, f.coreCall a = .ok c → (core c (R.GetRNGstate s.host)).1 = .error e →
      (f.call R core a s).1 = dispatch END_RCPP e) ∧
    (∀ e, e.isError = true → ∃ cond, dispatch END_RCPP e = .stop cond) ∧
    (∀ v, (f.call R core a s).1 = .returned v →
      ∃ c r, f.coreCall a = .ok c ∧ (core c (R.GetRNGstate s.host)).1 = .ok r ∧
        v = c.wrap r) := by
  rw [call_eq_expected]
  refine ⟨?_, ?_, ?_, ?_, ?_⟩
  · cases hc : f.coreCall a with
    | error e => simp only [DL_FUNC.expected, hc, dispatch_END_RCPP_handedBack]
    | ok c =>
      simp only [DL_FUNC.expected, hc]
      cases hr : core.result c (R.GetRNGstate s.host) with
      | error e => exact dispatch_END_RCPP_handedBack e
      | ok v => rfl
  · intro e hc
    simp only [DL_FUNC.expected, hc, and_self]
  · intro c e hc he
    simp only [DL_FUNC.expected, hc, Core.result, he]
  · intro e he
    cases e <;> first | exact ⟨_, rfl⟩ | exact absurd he (by simp [CppException.isError])
  · intro v hv
    cases hc : f.coreCall a with
    | error e =>
      simp only [DL_FUNC.expected, hc] at hv
      exact absurd hv (dispatch_END_RCPP_ne_returned e v)
    | ok c =>
      simp only [DL_FUNC.expected, hc, Core.result] at hv
      cases hr : (core c (R.GetRNGstate s.host)).1 with
      | error e =>
        rw [hr] at hv
        exact absurd hv (dispatch_END_RCPP_ne_returned e v)
      | ok r =>
        rw [hr] at hv
        simp only [Outcome.returned.injEq] at hv
        exact ⟨c, r, rfl, hr, hv.symm⟩

/-- Witness for C3: a core that reports a missing file by throwing; the call
of `_xattrs_get_xattr_raw` ends in an R error carrying the message. -/
theorem wrapper_never_lets_exception_escape_witness :
    (DL_FUNC.call noApi (throwingCore (.std_exception "No such file or directory"))
        ._xattrs_get_xattr_raw (mkArgs "/nonexistent" "user.a" [] false) ⟨(), []⟩).1
      = .stop (.exception_to_r_condition "No such file or directory") :=
  ((wrapper_never_lets_exception_escape noApi
      (throwingCore (.std_exception "No such file or directory"))
      ._xattrs_get_xattr_raw (mkArgs "/nonexistent" "user.a" [] false) ⟨(), []⟩).2.2.1
    (.get_xattr_raw "/nonexistent" "user.a" false) _ rfl rfl).trans (by decide)


/-- C4: every wrapper, the core function it calls and the interface operation
it implements have exactly one `follow_symlinks` parameter, it is the last
one, and in the core declaration it is the only `bool`.  Whenever the
arguments convert, the wrapper runs the core on the call whose
`follow_symlinks` is the conversion of the flag received: the host state
after the call is the one that core call leaves, and the outcome is what that
core call returned or threw.  When the flag received is the R logical for a
boolean `b`, that call has `follow_symlinks = b` (true as true, false as
false), and the wrapper consults the core on no call with the other flag:
two cores that agree on the calls with `follow_symlinks = b` give the same
outcome and the same state. -/
theorem follow_symlinks_passed_unchanged {H : Type} (R : RApi H) (core : Core H)
    (f : DL_FUNC) (a : Args) (s : Session H) :
    (f.params.getLast? = some "follow_symlinksSEXP" ∧
      f.params.count "follow_symlinksSEXP" = 1 ∧
      f.operation.params.getLast? = some "follow_symlinks" ∧
      f.operation.params.count "follow_symlinks" = 1 ∧
      f.core.params.getLast? = some (.bool, "follow_symlinks") ∧
      f.core.params.filter (fun p => p.1 = .bool ∨ p.2 = "follow_symlinks")
        = [(.bool, "follow_symlinks")]) ∧
    (∀ c ∈ (f.call R core a s).2.calls.drop s.calls.length,
      as_bool a.follow_symlinksSEXP = .ok c.follow_symlinks) ∧
    (∀ b : Bool, as_bool (wrap_bool b) = .ok b) ∧
    (∀ b : Bool, a.follow_symlinksSEXP = wrap_bool b →
      (∀ c ∈ (f.call R core a s).2.calls.drop s.calls.length, c.follow_symlinks = b) ∧
      (∀ c, f.coreCall a = .ok c →
        (f.call R core a s).2.calls = s.calls ++ [c] ∧ c.follow_symlinks = b)) ∧
    (∀ c, f.coreCall a = .ok c →
      as_bool a.follow_symlinksSEXP = .ok c.follow_symlinks ∧
      (f.call R core a s).2.host = R.PutRNGstate (core c (R.GetRNGstate s.host)).2 ∧
      (∀ r, (core c (R.GetRNGstate s.host)).1 = .ok r →
        (f.call R core a s).1 = .returned (c.wrap r)) ∧
      (∀ e, (core c (R.GetRNGstate s.host)).1 = .error e →
        (f.call R core a s).1 = dispatch END_RCPP e)) ∧
    (∀ (b : Bool) (core' : Core H), a.follow_symlinksSEXP = wrap_bool b →
      (∀ c h, c.follow_symlinks = b → core c h = core' c h) →
      f.call R core a s = f.call R core' a s) := by
  have hwrap : ∀ b : Bool, as_bool (wrap_bool b) = .ok b := by
    intro b; cases b <;> rfl
  have hcalls : ∀ c ∈ (f.call R core a s).2.calls.drop s.calls.length,
      as_bool a.follow_symlinksSEXP = .ok c.follow_symlinks := by
    intro c hc
    rw [call_eq_expected] at hc
    cases hcc : f.coreCall a with
    | error e => simp [DL_FUNC.expected, hcc] at hc
    | ok c' =>
      simp only [DL_FUNC.expected, hcc, List.drop_left, List.mem_singleton] at hc
      subst hc
      exact coreCall_follow_symlinks f a c hcc
  have hflag : ∀ b : Bool, a.follow_symlinksSEXP = wrap_bool b →
      ∀ c, f.coreCall a = .ok c → c.follow_symlinks = b := by
    intro b hb c hc
    have h1 := coreCall_follow_symlinks f a c hc
    rw [hb, hwrap] at h1
    exact (Except.ok.inj h1).symm
  refine ⟨by cases f <;> decide, hcalls, hwrap, ?_, ?_, ?_⟩
  · intro b hb
    refine ⟨?_, ?_⟩
    · intro c hc
      have h1 := hcalls c hc
      rw [hb, hwrap] at h1
      exact (Except.ok.inj h1).symm
    · intro c hc
      exact ⟨by rw [call_eq_expected]; simp only [DL_FUNC.expected, hc], hflag b hb c hc⟩
  · intro c hc
    rw [call_eq_expected]
    refine ⟨coreCall_follow_symlinks f a c hc, by simp only [DL_FUNC.expected, hc], ?_, ?_⟩
    · intro r hr
      simp only [DL_FUNC.expected, hc, Core.result, hr]
    · intro e he
      simp only [DL_FUNC.expected, hc, Core.result, he]
  · intro b core' hb hagree
    rw [call_eq_expected, call_eq_expected]
    cases hc : f.coreCall a with
    | error e => simp only [DL_FUNC.expected, hc]
    | ok c =>
      have hsame := hagree c (R.GetRNGstate s.host) (hflag b hb c hc)
      simp only [DL_FUNC.expected, hc, Core.result, hsame]

/-- Witness for C4: with a core that shows what it was called with,
`_xattrs_has_xattrs` called with `FALSE` leaves in the host state the call
`has_xattrs("/tmp/l", false)` and returns what the core made of the flag,
the R logical `FALSE`. -/
theorem follow_symlinks_passed_unchanged_witness :
    (DL_FUNC.call quietApi probeCore ._xattrs_has_xattrs
        (mkArgs "/tmp/l" "" [] false) ⟨[], []⟩).2.host
      = [CoreCall.has_xattrs "/tmp/l" false] ∧
    (DL_FUNC.call quietApi probeCore ._xattrs_has_xattrs
        (mkArgs "/tmp/l" "" [] false) ⟨[], []⟩).1 = .returned (wrap_bool false) :=
  have h := (follow_symlinks_passed_unchanged quietApi probeCore ._xattrs_has_xattrs
      (mkArgs "/tmp/l" "" [] false) ⟨[], []⟩).2.2.2.2.1
    (.has_xattrs "/tmp/l" false) rfl
  ⟨h.2.1, h.2.2.1 false rfl⟩

/-- The flag is not inverted either way: with the same core, `TRUE` comes
back as `TRUE` and leaves the call `has_xattrs("/tmp/l", true)`. -/
theorem follow_symlinks_true_reaches_core :
    DL_FUNC.call quietApi probeCore ._xattrs_has_xattrs
        (mkArgs "/tmp/l" "" [] true) ⟨[], []⟩
      = (.returned (wrap_bool true),
         ⟨[CoreCall.has_xattrs "/tmp/l" true], [CoreCall.has_xattrs "/tmp/l" true]⟩) ∧
    DL_FUNC.call quietApi probeCore ._xattrs_rcpp_set_xattr
        (mkArgs "/tmp/f" "user.a" [7] false) ⟨[], []⟩
      = (.returned (wrap_int 0),
         ⟨[CoreCall.rcpp_set_xattr "/tmp/f" "user.a" [7] false],
          [CoreCall.rcpp_set_xattr "/tmp/f" "user.a" [7] false]⟩) :=
  ⟨rfl, rfl⟩

/-- C7, as stated, fails: a call writes state that outlives it.  In an R
session whose `.Random.seed` is unbound, one call of `_xattrs_has_xattrs`
(with a core that touches nothing) leaves `.Random.seed` bound: the
`RNGScope` of the wrapper has written the host's random-number state. -/
theorem wrapper_writes_host_rng_state :
    (DL_FUNC.call rngApi idleCore ._xattrs_has_xattrs
        (mkArgs "/tmp/f" "" [] true) ⟨⟨none, 7⟩, []⟩).2.host = ⟨some 7, 7⟩ ∧
    (DL_FUNC.call rngApi idleCore ._xattrs_has_xattrs
        (mkArgs "/tmp/f" "" [] true) ⟨⟨none, 7⟩, []⟩).2.host ≠ ⟨none, 7⟩ := by
  decide

/-- C7, amended: the wrappers keep no state of their own.  The host state
after a call is exactly what the `RNGScope` of the wrapper (`GetRNGstate` on
entry, `PutRNGstate` on exit) and the core operation make of the host state
before it, and the result of a call depends on nothing but the arguments and
the behaviour of the core: two calls of the same entry point with equal
arguments, in whatever states (after whatever earlier calls), end alike
whenever the core behaves alike in them. -/
theorem wrapper_result_independent_of_history {H : Type} (R : RApi H) (core : Core H)
    (f : DL_FUNC) (a : Args) (s : Session H) :
    (f.call R core a s).2.host =
      (match f.coreCall a with
        | .ok c => R.PutRNGstate (core c (R.GetRNGstate s.host)).2
        | .error _ => R.PutRNGstate (R.GetRNGstate s.host)) ∧
    (∀ (H' : Type) (R' : RApi H') (core' : Core H') (s' : Session H'),
      (∀ c, f.coreCall a = .ok c →
        core.result c (R.GetRNGstate s.host) = core'.result c (R'.GetRNGstate s'.host)) →
      (f.call R core a s).1 = (f.call R' core' a s').1) ∧
    (∀ (before before' : List (DL_FUNC × Args)),
      (∀ c, f.coreCall a = .ok c →
        core.result c (R.GetRNGstate (runCalls R core before s).host)
          = core.result c (R.GetRNGstate (runCalls R core before' s).host)) →
      (f.call R core a (runCalls R core before s)).1
        = (f.call R core a (runCalls R core before' s)).1) := by
  have key : ∀ (H' : Type) (R' : RApi H') (core' : Core H') (s' : Session H'),
      (∀ c, f.coreCall a = .ok c →
        core.result c (R.GetRNGstate s.host) = core'.result c (R'.GetRNGstate s'.host)) →
      (f.call R core a s).1 = (f.call R' core' a s').1 := by
    intro H' R' core' s' hsame
    rw [call_eq_expected, call_eq_expected]
    cases hc : f.coreCall a with
    | error e => simp only [DL_FUNC.expected, hc]
    | ok c => simp only [DL_FUNC.expected, hc, hsame c hc]
  refine ⟨?_, key, ?_⟩
  · rw [call_eq_expected]
    cases hc : f.coreCall a <;> simp only [DL_FUNC.expected, hc]
  · intro before before' hsame
    rw [call_eq_expected, call_eq_expected]
    cases hc : f.coreCall a with
    | error e => simp only [DL_FUNC.expected, hc]
    | ok c => simp only [DL_FUNC.expected, hc, hsame c hc]

/-- Witness for C7: the same call after no earlier call and after an earlier
`_xattrs_rcpp_set_xattr`, in sessions with different random-number state,
returns the same value. -/
theorem wrapper_result_independent_of_history_witness :
    (DL_FUNC.call rngApi idleCore ._xattrs_get_xattr_size
        (mkArgs "/tmp/f" "user.a" [] true) ⟨⟨none, 7⟩, []⟩).1
      = (DL_FUNC.call rngApi idleCore ._xattrs_get_xattr_size
          (mkArgs "/tmp/f" "user.a" [] true)
          (runCalls rngApi idleCore
            [(._xattrs_rcpp_set_xattr, mkArgs "/tmp/f" "user.a" [1] true)]
            ⟨⟨some 3, 5⟩, []⟩)).1 :=
  (wrapper_result_independent_of_history rngApi idleCore ._xattrs_get_xattr_size
    (mkArgs "/tmp/f" "user.a" [] true) ⟨⟨none, 7⟩, []⟩).2.1 RNGHost rngApi idleCore _
    (fun _ h => by cases (Except.ok.inj h); rfl)

end Xattrs

namespace XattrStore

/-! ## The core store -/

/-- The failures of `Set` other than a missing path: an over-long name is
caught before anything else; on a file the user may not write the operating
system reports access denied; a value too large for the file system is the
OS-reported limit; attributes on the link itself are unsupported; a native
code the store does not recognise is `UnknownOSError`; and in each case the
file system is left as it was. -/
theorem Set_surfaces_typed_errors :
    (Set ⟨0, 65536, true, 40⟩ oneFile "/tmp/f" user_a [] true).1
      = .error .LimitExceededError ∧
    (Set linux guardedFile "/tmp/f" user_a [1] true).1 = .error .PermissionError ∧
    (Set linux guardedFile "/tmp/f" user_a (List.replicate 17 0) true).1
      = .error .LimitExceededError ∧
    (Set linux guardedFile "/tmp/l" user_a [1] false).1
      = .error .UnsupportedOperationError ∧
    (Set ⟨255, 65536, false, 40⟩ oneFile "/tmp/l" user_a [1] false).1
      = .error .UnsupportedOperationError ∧
    (Set linux guardedFile "/tmp/f" attr_a [1] true).1 = .error .UnknownOSError ∧
    (Set linux guardedFile "/tmp/f" user_a [1] true).2.attrs "/tmp/f" = [] :=
  ⟨rfl, rfl, rfl, rfl, rfl, rfl, rfl⟩

end XattrStore
